import Mathlib

/-!
Shallow embedding of `flip-docs/resources/experiments/basic-bimodal.py`, the
plotting script of the `flip` repository, together with theorems checking the
specification's claims against it.

The script's numeric literals are embedded as exact rationals (for the
configuration constants) and reals (for the Gaussian mixture density); the
string-building code is embedded over Lean's `String`.
-/

namespace BasicBimodal

/-- Embeds `name = "basic-bimodal"`. -/
def name : String := "basic-bimodal"

/-- Embeds `dir = "../../../flip-bench/experiments/basic-bimodal/"`. -/
def dir : String := "../../../flip-bench/experiments/basic-bimodal/"

/-- Embeds `def data_loc(i): return dir + "basic-bimodal-pdf-" + str(i) + ".out"`. -/
def data_loc (i : ℕ) : String :=
  dir ++ "basic-bimodal-pdf-" ++ toString i ++ ".out"

/-- Embeds `xmin = -5`. -/
def xmin : ℚ := -5

/-- Embeds `xmax = 5`. -/
def xmax : ℚ := 5

/-- Embeds `ymin = 0`. -/
def ymin : ℚ := 0

/-- Embeds `ymax = 0.3`. -/
def ymax : ℚ := 0.3

/-- Embeds `data_counts = [40, 60, 340]`. -/
def data_counts : List ℕ := [40, 60, 340]

/-- Embeds the per-panel title built in the loop:
`"(" + chr(ord('a') + i) + ")" + " pdf at update count: " + str(data_count)`. -/
def panelTitle (i : ℕ) (data_count : ℕ) : String :=
  "(" ++ String.singleton (Char.ofNat ('a'.toNat + i)) ++ ")"
    ++ " pdf at update count: " ++ toString data_count

/-- The titles of the density-comparison panels, one per entry of
`data_counts`, in loop order (the loop counter `i` starts at 0). -/
def staticPanelTitles : List String :=
  data_counts.enum.map (fun p => panelTitle p.1 p.2)

/-- Embeds `ax.set_title("(d) KL-divergence")` for the divergence panel. -/
def kldPanelTitle : String := "(d) KL-divergence"

/-- All panel titles of the static figure, in subplot order: the density
panels first (subplots 1..len(data_counts)), then the divergence panel
(subplot len(data_counts)+1). -/
def allPanelTitles : List String := staticPanelTitles ++ [kldPanelTitle]

/-- Embeds `countmin = 40`. -/
def countmin : ℕ := 40

/-- Embeds `countmax = 500`. -/
def countmax : ℕ := 500

/-- Embeds `rearr_start = 50`. -/
def rearr_start : ℕ := 50

/-- Embeds `rearr_period = 100`. -/
def rearr_period : ℕ := 100

/-- Embeds `kld_max = 0.13`. -/
def kld_max : ℚ := 0.13

/-- Modelled from the spec: the rearrangement markers drawn by
`kldplt.kldplot` (the `kldplot` module is not part of this repository) are
"every checkpoint at rearr_start + k * rearr_period (k = 0,1,2,…) that falls
within [countmin, countmax]". -/
def rearrMarkers (s p lo hi : ℕ) : Set ℕ :=
  {m | (∃ k : ℕ, m = s + k * p) ∧ lo ≤ m ∧ m ≤ hi}

/-- Embeds `start = 10`. -/
def start : ℕ := 10

/-- Embeds `end = 500` (`end` is a Lean keyword, hence the prime). -/
def end' : ℕ := 500

/-- Embeds `step = 10`. -/
def step : ℕ := 10

/-- Embeds `fps = 4`. -/
def fps : ℕ := 4

/-- Python `range(a, b, s)` for a positive step `s`: the values
`a, a + s, a + 2*s, …` strictly below `b`. -/
def pyRange (a b s : ℕ) : List ℕ :=
  (List.range ((b - a + s - 1) / s)).map (fun k => a + k * s)

/-- Modelled from the spec: the animation sweep (the frame loop lives in
`pdfplt.animated_pdfplot_errorbar` / `animated_pdfplot_bar`, whose `pdfplot`
module is not part of this repository) renders one frame "for each checkpoint
`c` in `range(start, end, step)`". -/
def animFrames : List ℕ := pyRange start end' step

/-- Embeds the static render calls
`pdfplt.pdfplot_bar(ax, expected, data_loc(data_count), xmin, xmax, ymin, ymax)`,
recording the file path and the four axis bounds each call receives. -/
def staticBarCalls : List (String × ℚ × ℚ × ℚ × ℚ) :=
  data_counts.map (fun dc => (data_loc dc, xmin, xmax, ymin, ymax))

/-- Modelled from the spec: every frame of an animated plot uses the axis
bounds of its `animated_pdfplot_*` call ("holding axis bounds fixed across all
frames"); both calls in the script pass `xmin, xmax, ymin, ymax`. -/
def animFrameBounds : List (ℚ × ℚ × ℚ × ℚ) :=
  animFrames.map (fun _ => (xmin, xmax, ymin, ymax))
    ++ animFrames.map (fun _ => (xmin, xmax, ymin, ymax))

/-- The axis bounds received by every density render call of a run: the three
static panels followed by every frame of both animations. -/
def allRenderBounds : List (ℚ × ℚ × ℚ × ℚ) :=
  staticBarCalls.map (fun c => c.2) ++ animFrameBounds

/-- Embeds the four output-writing calls, in program order:
`plt.savefig(name + '.pdf')`, `plt.savefig(name + '.png')`,
`utd_animation1.save(name + '-errorbar.gif', …)`,
`utd_animation2.save(name + '-histo.gif', …)`. -/
def outputFiles : List String :=
  [name ++ ".pdf", name ++ ".png", name ++ "-errorbar.gif", name ++ "-histo.gif"]

/-- Embeds `scipy.stats.norm.pdf` (standard normal density):
`norm.pdf(x) = exp(-x^2 / 2) / sqrt(2 * pi)`. -/
noncomputable def normPdf (x : ℝ) : ℝ :=
  Real.exp (-(x ^ 2) / 2) / Real.sqrt (2 * Real.pi)

/-- Embeds
`def expected(x, i = -1): return 0.5 * norm.pdf(x - 2) + 0.5 * norm.pdf(x + 2)`.
The update-count argument `i` is accepted and never used, as in the source. -/
noncomputable def expected (x : ℝ) (i : ℤ) : ℝ :=
  0.5 * normPdf (x - 2) + 0.5 * normPdf (x + 2)

/-- Normal density with a given mean and standard deviation, written from the
spec's wording `N(x; mean, std)`, for comparison with `expected`. -/
noncomputable def normalDensity (mean std x : ℝ) : ℝ :=
  Real.exp (-((x - mean) ^ 2) / (2 * std ^ 2)) / (std * Real.sqrt (2 * Real.pi))

/-- Modelled from the spec: the animation build (`pdfplt.animated_pdfplot_*`
and the animation `save` method are not part of this repository). For each
checkpoint of the sweep it resolves the path and loads the checkpoint file;
"any missing/malformed checkpoint file aborts the entire animation build
rather than skipping a frame", so the first absent file yields a load error
naming that path and no further frame is produced. `files` maps a path to the
loaded frame data when the file is present and parseable. -/
def buildFrames {α : Type} (loc : ℕ → String) (files : String → Option α) :
    List ℕ → Except String (List α)
  | [] => Except.ok []
  | c :: cs =>
    match files (loc c) with
    | none => Except.error ("missing checkpoint file: " ++ loc c)
    | some d =>
      match buildFrames loc files cs with
      | Except.error e => Except.error e
      | Except.ok ds => Except.ok (d :: ds)

/-- Modelled from the spec: the encoded looping image is written only when
every frame was built; a failed build writes "no partial `.gif`". -/
def savedGif {α : Type} (loc : ℕ → String) (files : String → Option α)
    (cs : List ℕ) : Option (List α) :=
  (buildFrames loc files cs).toOption

/-! Decimal decoding, used to show that `str(i)` (Lean's `Nat.repr`) is
injective, which makes `data_loc` injective. -/

/-- The numeric value of a decimal digit character. -/
def digitVal (c : Char) : ℕ := c.toNat - 48

/-- Reads a list of digit characters back as a natural number. -/
def decodeDigits (l : List Char) : ℕ :=
  l.foldl (fun a c => 10 * a + digitVal c) 0

theorem decode_foldl (l : List Char) (a : ℕ) :
    l.foldl (fun a c => 10 * a + digitVal c) a
      = a * 10 ^ l.length + decodeDigits l := by
  induction l generalizing a with
  | nil => simp [decodeDigits]
  | cons c t ih =>
    show t.foldl _ (10 * a + digitVal c) = _
    rw [ih]
    show _ = a * 10 ^ (t.length + 1) + (c :: t).foldl _ 0
    show _ = a * 10 ^ (t.length + 1) + t.foldl _ (10 * 0 + digitVal c)
    rw [ih]
    show _ = a * 10 ^ (t.length + 1) + ((10 * 0 + digitVal c) * 10 ^ t.length + decodeDigits t)
    ring

theorem decode_cons (c : Char) (ds : List Char) :
    decodeDigits (c :: ds) = digitVal c * 10 ^ ds.length + decodeDigits ds := by
  show ds.foldl _ (10 * 0 + digitVal c) = _
  rw [decode_foldl]
  ring

theorem digitVal_digitChar : ∀ d : ℕ, d < 10 → digitVal (Nat.digitChar d) = d := by
  decide

theorem decode_toDigitsCore :
    ∀ (f n : ℕ), n < 10 ^ f → ∀ ds : List Char,
      decodeDigits (Nat.toDigitsCore 10 f n ds)
        = n * 10 ^ ds.length + decodeDigits ds := by
  intro f
  induction f with
  | zero =>
    intro n hn ds
    have h0 : n = 0 := by simpa using hn
    subst h0
    simp [Nat.toDigitsCore]
  | succ f ih =>
    intro n hn ds
    by_cases h : n / 10 = 0
    · have hn10 : n < 10 := by omega
      simp only [Nat.toDigitsCore, h, if_pos]
      rw [decode_cons, digitVal_digitChar _ (by omega), Nat.mod_eq_of_lt hn10]
    · have hdiv : n / 10 < 10 ^ f := by
        rw [pow_succ] at hn
        omega
      simp only [Nat.toDigitsCore, h, if_neg, ite_false]
      rw [ih (n / 10) hdiv (Nat.digitChar (n % 10) :: ds)]
      rw [decode_cons, digitVal_digitChar _ (by omega)]
      simp only [List.length_cons]
      conv_rhs => rw [← Nat.div_add_mod n 10]
      ring

theorem decode_repr (n : ℕ) : decodeDigits (Nat.repr n).data = n := by
  have hlt : n < 10 ^ (n + 1) :=
    lt_of_lt_of_le (Nat.lt_two_pow n)
      (le_trans (Nat.pow_le_pow_left (by norm_num) n)
        (Nat.pow_le_pow_right (by norm_num) (Nat.le_succ n)))
  show decodeDigits (Nat.toDigitsCore 10 (n + 1) n []) = n
  rw [decode_toDigitsCore (n + 1) n hlt []]
  simp [decodeDigits]

theorem decode_toString (n : ℕ) : decodeDigits (toString n).data = n :=
  decode_repr n

/-! Claim theorems. -/

/-- C1: for every real `x` and update counts `i`, `j`, the reference density
`expected x i` equals `0.5 * N(x; mean=2, std=1) + 0.5 * N(x; mean=-2, std=1)`
(each term a standard normal density shifted by ±2), and its value does not
depend on the update-count argument. -/
theorem c1_expected_is_mixture (x : ℝ) (i j : ℤ) :
    expected x i = 0.5 * normalDensity 2 1 x + 0.5 * normalDensity (-2) 1 x ∧
    expected x i = expected x j := by
  refine ⟨?_, rfl⟩
  simp only [expected, normPdf, normalDensity]
  norm_num

/-- C5: the reference density is symmetric about zero:
`expected x i = expected (-x) i` for every real `x` and every `i`. -/
theorem c5_expected_symmetric (x : ℝ) (i : ℤ) :
    expected x i = expected (-x) i := by
  simp only [expected, normPdf]
  have h1 : (-x - 2) ^ 2 = (x + 2) ^ 2 := by ring
  have h2 : (-x + 2) ^ 2 = (x - 2) ^ 2 := by ring
  rw [h1, h2]
  ring

/-- C2: the rearrangement markers at the configured constants
(`rearr_start = 50`, `rearr_period = 100`, `countmin = 40`, `countmax = 500`)
are exactly the set {50, 150, 250, 350, 450}. -/
theorem c2_rearr_markers_exact :
    rearrMarkers rearr_start rearr_period countmin countmax
      = ({50, 150, 250, 350, 450} : Set ℕ) := by
  ext m
  simp only [rearrMarkers, rearr_start, rearr_period, countmin, countmax,
    Set.mem_setOf_eq, Set.mem_insert_iff, Set.mem_singleton_iff]
  constructor
  · rintro ⟨⟨k, rfl⟩, hlo, hhi⟩
    have hk : k ≤ 4 := by omega
    interval_cases k <;> omega
  · rintro (rfl | rfl | rfl | rfl | rfl)
    · exact ⟨⟨0, by norm_num⟩, by norm_num, by norm_num⟩
    · exact ⟨⟨1, by norm_num⟩, by norm_num, by norm_num⟩
    · exact ⟨⟨2, by norm_num⟩, by norm_num, by norm_num⟩
    · exact ⟨⟨3, by norm_num⟩, by norm_num, by norm_num⟩
    · exact ⟨⟨4, by norm_num⟩, by norm_num, by norm_num⟩

/-- C3: the static figure has `data_counts.length + 1 = 4` panels whose titles
are, in order, "(a) pdf at update count: 40", "(b) pdf at update count: 60",
"(c) pdf at update count: 340" and "(d) KL-divergence". -/
theorem c3_panel_titles :
    allPanelTitles.length = data_counts.length + 1 ∧
    allPanelTitles =
      ["(a) pdf at update count: 40", "(b) pdf at update count: 60",
       "(c) pdf at update count: 340", "(d) KL-divergence"] := by
  exact ⟨rfl, rfl⟩

/-- C4 counterexample: the sweep over Python `range(10, 500, 10)` does not
have `(500 - 10) / 10 + 1 = 50` frames (the end bound is exclusive). -/
theorem c4_frame_count_counterexample :
    ¬ (animFrames.length = (end' - start) / step + 1) := by
  decide

/-- C4 amended: the animation sweep over `range(start, end, step)` with
`start = 10`, `end = 500`, `step = 10` produces exactly 49 frames, one per
checkpoint `10, 20, …, 490`; the end bound 500 is excluded. -/
theorem c4_frame_count :
    animFrames.length = 49 ∧
    animFrames.length = (end' - start + step - 1) / step ∧
    490 ∈ animFrames ∧ 500 ∉ animFrames := by
  decide

/-- C8: a complete run writes exactly the four artifacts
`basic-bimodal.pdf`, `basic-bimodal.png`, `basic-bimodal-errorbar.gif` and
`basic-bimodal-histo.gif`, each named by appending a suffix to `name`. -/
theorem c8_output_files :
    outputFiles =
      ["basic-bimodal.pdf", "basic-bimodal.png",
       "basic-bimodal-errorbar.gif", "basic-bimodal-histo.gif"] ∧
    outputFiles.length = 4 :=
  ⟨rfl, rfl⟩

/-- C6: `data_loc i` is the path template
`dir ++ "basic-bimodal-pdf-" ++ str(i) ++ ".out"`, and distinct update counts
give distinct paths. -/
theorem c6_data_loc_template_and_injective :
    (∀ i : ℕ, data_loc i = dir ++ "basic-bimodal-pdf-" ++ Nat.repr i ++ ".out") ∧
    ∀ i j : ℕ, i ≠ j → data_loc i ≠ data_loc j := by
  refine ⟨fun i => rfl, fun i j hne h => hne ?_⟩
  have hd := congrArg String.data h
  simp only [data_loc, String.data_append, List.append_assoc] at hd
  have h1 := List.append_cancel_left hd
  have h2 := List.append_cancel_left h1
  have h3 := List.append_cancel_right h2
  calc i = decodeDigits (toString i).data := (decode_toString i).symm
    _ = decodeDigits (toString j).data := by rw [h3]
    _ = j := decode_toString j

/-- C6 witness: at update counts 40 and 60 the template holds and the two
paths differ. -/
theorem c6_data_loc_witness :
    data_loc 40 = dir ++ "basic-bimodal-pdf-" ++ Nat.repr 40 ++ ".out" ∧
    data_loc 40 ≠ data_loc 60 :=
  ⟨c6_data_loc_template_and_injective.1 40,
   c6_data_loc_template_and_injective.2 40 60 (by decide)⟩

/-- C7: every density render call of a run (the three static panels and every
frame of both animations) receives the same four axis bounds, namely
`(xmin, xmax, ymin, ymax) = (-5, 5, 0, 3/10)`. -/
theorem c7_bounds_uniform :
    allRenderBounds = List.replicate allRenderBounds.length (xmin, xmax, ymin, ymax) ∧
    (xmin, xmax, ymin, ymax) = ((-5 : ℚ), 5, 0, 3 / 10) := by
  constructor
  · rfl
  · norm_num [xmin, xmax, ymin, ymax]

theorem buildFrames_error {α : Type} (files : String → Option α) :
    ∀ (cs : List ℕ) (c : ℕ), c ∈ cs → files (data_loc c) = none →
      ∃ e, buildFrames data_loc files cs = Except.error e := by
  intro cs
  induction cs with
  | nil => intro c hc _; cases hc
  | cons a t ih =>
    intro c hc hmiss
    rcases List.mem_cons.mp hc with rfl | hct
    · exact ⟨"missing checkpoint file: " ++ data_loc c, by
        simp [buildFrames, hmiss]⟩
    · cases hfa : files (data_loc a) with
      | none => exact ⟨"missing checkpoint file: " ++ data_loc a, by
          simp [buildFrames, hfa]⟩
      | some d =>
        obtain ⟨e, he⟩ := ih c hct hmiss
        exact ⟨e, by simp [buildFrames, hfa, he]⟩

/-- C9: if a checkpoint of the sweep has no loadable file, the whole
animation build ends in a load error (no frame is skipped) and no gif output
is produced. -/
theorem c9_missing_file_aborts {α : Type} (files : String → Option α)
    (cs : List ℕ) (c : ℕ) (hc : c ∈ cs) (hmiss : files (data_loc c) = none) :
    (∃ e, buildFrames data_loc files cs = Except.error e) ∧
    savedGif data_loc files cs = none := by
  obtain ⟨e, he⟩ := buildFrames_error files cs c hc hmiss
  exact ⟨⟨e, he⟩, by simp [savedGif, he, Except.toOption]⟩

/-- C9 witness: with no file present at all, the one-checkpoint sweep [10]
errors out and writes no gif. -/
theorem c9_missing_file_aborts_witness :
    (∃ e, buildFrames data_loc (fun _ => (none : Option Unit)) [10]
        = Except.error e) ∧
    savedGif data_loc (fun _ => (none : Option Unit)) [10] = none :=
  c9_missing_file_aborts (fun _ => none) [10] 10 (by simp) rfl

/-! Bounds on the reference density, for C10. -/

theorem sqrt_two_pi_pos : 0 < Real.sqrt (2 * Real.pi) :=
  Real.sqrt_pos.mpr (by positivity)

theorem normPdf_pos (y : ℝ) : 0 < normPdf y := by
  unfold normPdf
  positivity

theorem normPdf_le_max (y : ℝ) : normPdf y ≤ 1 / Real.sqrt (2 * Real.pi) := by
  unfold normPdf
  rw [div_le_div_iff_of_pos_right sqrt_two_pi_pos]
  exact Real.exp_le_one_iff.mpr (by nlinarith [sq_nonneg y])

theorem normPdf_le_far (y : ℝ) (h : 2 ≤ |y|) :
    normPdf y ≤ Real.exp (-2) / Real.sqrt (2 * Real.pi) := by
  unfold normPdf
  rw [div_le_div_iff_of_pos_right sqrt_two_pi_pos]
  apply Real.exp_le_exp.mpr
  nlinarith [sq_abs y, abs_nonneg y]

theorem sqrt_two_pi_gt : (2.5 : ℝ) < Real.sqrt (2 * Real.pi) := by
  refine (Real.lt_sqrt (by norm_num)).mpr ?_
  nlinarith [Real.pi_gt_d2]

theorem exp_neg_two_lt_half : Real.exp (-2) < 1 / 2 := by
  have h2 : (3 : ℝ) < Real.exp 2 := by
    have := Real.add_one_lt_exp (x := 2) (by norm_num)
    linarith
  have hmul : Real.exp (-2) * Real.exp 2 = 1 := by
    rw [← Real.exp_add]; norm_num
  nlinarith [Real.exp_pos (-2)]

theorem half_sum_lt (a b : ℝ) (ha : 2 ≤ |a|) :
    0.5 * normPdf a + 0.5 * normPdf b < 3 / 10 := by
  have h1 := normPdf_le_far a ha
  have h2 := normPdf_le_max b
  have hS := sqrt_two_pi_pos
  have hS25 := sqrt_two_pi_gt
  have hE := exp_neg_two_lt_half
  have hcalc : 0.5 * normPdf a + 0.5 * normPdf b
      ≤ (0.5 * Real.exp (-2) + 0.5) / Real.sqrt (2 * Real.pi) := by
    calc 0.5 * normPdf a + 0.5 * normPdf b
        ≤ 0.5 * (Real.exp (-2) / Real.sqrt (2 * Real.pi))
            + 0.5 * (1 / Real.sqrt (2 * Real.pi)) := by gcongr
      _ = (0.5 * Real.exp (-2) + 0.5) / Real.sqrt (2 * Real.pi) := by ring
  have hlt : (0.5 * Real.exp (-2) + 0.5) / Real.sqrt (2 * Real.pi) < 3 / 10 := by
    rw [div_lt_iff₀ hS]
    nlinarith
  linarith

/-- C10: the reference density is strictly positive and strictly below the
vertical axis cap: `0 < expected x i < ymax = 0.3` for every real `x` and
every `i`, so the reference curve is never clipped by the fixed window. -/
theorem c10_expected_pos_below_ymax (x : ℝ) (i : ℤ) :
    0 < expected x i ∧ expected x i < (ymax : ℝ) := by
  have hy : (ymax : ℝ) = 3 / 10 := by norm_num [ymax]
  constructor
  · have h1 := normPdf_pos (x - 2)
    have h2 := normPdf_pos (x + 2)
    unfold expected
    linarith
  · rw [hy]
    have hcase : 2 ≤ |x - 2| ∨ 2 ≤ |x + 2| := by
      rcases le_total 0 x with h | h
      · right; rw [abs_of_nonneg (by linarith)]; linarith
      · left; rw [abs_of_nonpos (by linarith)]; linarith
    unfold expected
    rcases hcase with hc | hc
    · exact half_sum_lt (x - 2) (x + 2) hc
    · have := half_sum_lt (x + 2) (x - 2) hc
      linarith

end BasicBimodal
